import Mathlib

/-!
Shallow embedding of the sysinfo repository's refresh and delta logic.

Source files embedded:
  * src/src/linux/network.rs  (NetworkData, new, read_things, update_network)
  * src/src/mac/system.rs     (System, clear_procs, refresh_memory, refresh_cpu,
                               refresh_processes, refresh_process, accessors)

Machine integers: the source uses u64 for byte/kilobyte counters; we model a
u64 value as a natural number smaller than 2^64 and make wrap-around explicit
with modular arithmetic where the source's unchecked arithmetic can wrap
(release-build semantics of Rust integer overflow).  CPU tick values are i32
in the source; every tick addition and subtraction of `refresh_cpu` is
modelled with the wrapping i32 normalisation `wrap32` (same release-mode wrap
semantics), so tick sums that overflow i32 wrap as the program's do.  f32 values
(cpu usage percentages) are modelled as `Option ℚ`: `some q` is the finite
float value idealised as a rational, `none` is a non-finite result (NaN or an
infinity, as produced by dividing by zero).

External effects (sysctl reads, host_processor_info, /sys file reads, pid
enumeration) are passed in as explicit arguments describing the data the OS
returned, with `Option`/`Except` encoding failure, exactly at the points where
the source code checks success.
-/

/-- The modulus of u64 arithmetic, 2^64. -/
def U64MOD : ℕ := 2 ^ 64

/-- Wrapping u64 subtraction: for `a b < 2^64` this is `a - b` when `b ≤ a`
and `a - b + 2^64` otherwise, i.e. the value Rust's release-mode `a - b`
produces on u64. -/
def wsub64 (a b : ℕ) : ℕ := (U64MOD + a - b) % U64MOD

/- ------------------------------------------------------------------ -/
/- src/src/linux/network.rs                                           -/
/- ------------------------------------------------------------------ -/

/-- Struct `NetworkData` from src/src/linux/network.rs: two generations of
received/transmitted byte totals. -/
structure NetworkData where
  old_in : ℕ
  old_out : ℕ
  current_in : ℕ
  current_out : ℕ
deriving DecidableEq, Repr

/-- Accessor `get_income` (network.rs lines 22-24): the source computes the
unchecked u64 subtraction `self.current_in - self.old_in`. -/
def NetworkData.get_income (n : NetworkData) : ℕ := wsub64 n.current_in n.old_in

/-- Accessor `get_outcome` (network.rs lines 26-28): unchecked u64
subtraction `self.current_out - self.old_out`. -/
def NetworkData.get_outcome (n : NetworkData) : ℕ := wsub64 n.current_out n.old_out

/-- Constructor `new` (network.rs lines 31-38): all four counters zero. -/
def network.new : NetworkData :=
  { old_in := 0, old_out := 0, current_in := 0, current_out := 0 }

/-- One directory entry of `/sys/class/net` as seen by `read_things`:
`entry_ok` is whether the `DirEntry` read and the UTF-8 conversion of its
file name both succeeded; `rx`/`tx` are the results of opening, reading and
parsing `statistics/rx_bytes` / `statistics/tx_bytes` for that interface
(`none` = any I/O or parse failure inside `read_interface_stat`). -/
structure IfaceEntry where
  entry_ok : Bool
  rx : Option ℕ
  tx : Option ℕ
deriving DecidableEq, Repr

/-- The environment `read_things` observes: `none` models
`fs::read_dir("/sys/class/net")` failing, `some entries` models a successful
directory listing. -/
abbrev NetEnv := Option (List IfaceEntry)

/-- Function `read_things` (network.rs lines 40-66).  Failures of the
directory read are swallowed (`if let Ok(entries)`), failed entries and
non-UTF-8 names are skipped, and a failed per-interface stat read counts as
`0` (`unwrap_or(0)`); the accumulating additions are u64 and may wrap.  The
function always ends in `Ok((rx, tx))`: its `Result` type has no reachable
error case. -/
def read_things (env : NetEnv) : Except Unit (ℕ × ℕ) :=
  match env with
  | none => Except.ok (0, 0)
  | some entries =>
    Except.ok <| entries.foldl
      (fun acc e =>
        if e.entry_ok then
          ((acc.1 + e.rx.getD 0) % U64MOD, (acc.2 + e.tx.getD 0) % U64MOD)
        else acc)
      (0, 0)

/-- Function `update_network` (network.rs lines 68-76): on `Ok` shift
`current` into `old` and install the new totals; on `Err` leave the state
unchanged (a branch that `read_things` never takes). -/
def update_network (n : NetworkData) (env : NetEnv) : NetworkData :=
  match read_things env with
  | Except.ok (new_in, new_out) =>
    { old_in := n.current_in, old_out := n.current_out,
      current_in := new_in, current_out := new_out }
  | Except.error _ => n
/- ------------------------------------------------------------------ -/
/- Processor model (sys/processor, used by src/src/mac/system.rs)     -/
/- ------------------------------------------------------------------ -/

/-- One logical core's cumulative tick tuple (`i32` values of the
`PROCESSOR_CPU_LOAD_INFO` array, at offsets `CPU_STATE_USER`,
`CPU_STATE_SYSTEM`, `CPU_STATE_NICE`, `CPU_STATE_IDLE`). -/
structure Ticks where
  user : ℤ
  system : ℤ
  nice : ℤ
  idle : ℤ
deriving DecidableEq, Repr

/-- The raw `cpu_info` array returned by `host_processor_info`, viewed as a
map from core index to that core's tick tuple. -/
abbrev CpuInfo := ℕ → Ticks

/-- Modelled from the spec (sys/processor's `ProcessorData` is not under
src/): the retained raw sample a processor entry keeps as its previous
generation.  `cpu_info = none` models the null pointer the aggregate entry is
created with. -/
structure ProcessorData where
  cpu_info : Option CpuInfo
  num_cpu_info : ℕ

/-- Modelled from the spec (sys/processor's `Processor` is not under src/):
name, derived usage percentage, and the retained raw sample.  The usage is an
f32 in the source, modelled as `Option ℚ` (`none` = non-finite). -/
structure Processor where
  name : String
  cpu_usage : Option ℚ
  processor_data : ProcessorData

/-- Modelled from the spec: `processor::create_proc` builds a fresh entry
whose initial usage reads as `0.0` ("so initial usage reads as `0.0`"). -/
def processor.create_proc (name : String) (data : ProcessorData) : Processor :=
  { name := name, cpu_usage := some 0, processor_data := data }

/-- Modelled from the spec: `processor::set_cpu_proc` stores a computed usage
percentage into the entry. -/
def processor.set_cpu_proc (p : Processor) (usage : Option ℚ) : Processor :=
  { p with cpu_usage := usage }

/-- Modelled from the spec: `processor::update_proc` installs the freshly
computed usage and moves the new raw sample in as the retained generation. -/
def processor.update_proc (p : Processor) (usage : Option ℚ) (data : ProcessorData) :
    Processor :=
  { p with cpu_usage := usage, processor_data := data }

/-- Modelled from the spec: `processor::set_cpu_usage` overwrites only the
usage field (used for the aggregate entry). -/
def processor.set_cpu_usage (p : Processor) (usage : Option ℚ) : Processor :=
  { p with cpu_usage := usage }

/-- Modelled from the spec: `Processor::get_cpu_usage` reads the usage. -/
def Processor.get_cpu_usage (p : Processor) : Option ℚ := p.cpu_usage

/-- Modelled from the spec: `processor::get_processor_data` reads the
retained raw sample. -/
def processor.get_processor_data (p : Processor) : ProcessorData := p.processor_data

/-- f32 division as the source performs it, with no zero guard: dividing by
zero yields a non-finite float (NaN for `0/0`, an infinity otherwise),
modelled as `none`. -/
def divf (a b : ℚ) : Option ℚ := if b = 0 then none else some (a / b)

/-- f32 addition (`pourcent += usage`): any non-finite operand makes the
result non-finite. -/
def addf (a b : Option ℚ) : Option ℚ :=
  match a, b with
  | some x, some y => some (x + y)
  | _, _ => none

/-- Wrapping i32 normalisation: the value Rust's release-mode i32 arithmetic
stores for the exact integer `z`, i.e. the representative of `z` modulo
`2^32` lying in `[-2^31, 2^31)`.  Every tick addition and subtraction of
`refresh_cpu` is an i32 operation and wraps this way. -/
def wrap32 (z : ℤ) : ℤ := (z + 2 ^ 31) % 2 ^ 32 - 2 ^ 31

/-- The busy tick count `in_use` read in `refresh_cpu` (system.rs lines
213-219 and 240-253): the wrapping i32 sum user + system + nice (absolute on
the first refresh, deltas afterwards).  The source wraps after each of the
two additions; since `wrap32 (wrap32 a + b) = wrap32 (a + b)` (proved below
as `wrap32_add_left`), one outer `wrap32` of the exact sum is the same
value. -/
def busyTicks (t : Ticks) : ℤ := wrap32 (t.user + t.system + t.nice)

/-- Per-core usage on the FIRST refresh (system.rs lines 213-224):
`in_use / total` over the absolute cumulative ticks of the very first
sample, where `total` is the wrapping i32 sum `in_use + idle`. -/
def firstUsage (t : Ticks) : Option ℚ :=
  divf (busyTicks t : ℚ) ((wrap32 (busyTicks t + t.idle) : ℤ) : ℚ)

/-- Tick deltas between the retained and the fresh sample for one core
(system.rs lines 240-259): each `new - old` is a wrapping i32
subtraction. -/
def deltaTicks (told tnew : Ticks) : Ticks :=
  { user := wrap32 (tnew.user - told.user),
    system := wrap32 (tnew.system - told.system),
    nice := wrap32 (tnew.nice - told.nice),
    idle := wrap32 (tnew.idle - told.idle) }

/-- Per-core usage on subsequent refreshes (system.rs lines 240-264):
`in_use / total` over the deltas. -/
def deltaUsage (told tnew : Ticks) : Option ℚ := firstUsage (deltaTicks told tnew)

/-- One step of the `iter_mut().skip(1).enumerate()` loop of the non-first
branch of `refresh_cpu` (system.rs lines 238-265): read the retained sample,
compute the delta usage, install usage and new sample.  A null retained
pointer (never the case for a core entry built by this code) is read as the
all-zero sample. -/
def coreUpdate (cpu_info : CpuInfo) (proc_data : ProcessorData) (i : ℕ)
    (p : Processor) : Processor :=
  let old := (processor.get_processor_data p).cpu_info.getD
    (fun _ => { user := 0, system := 0, nice := 0, idle := 0 })
  processor.update_proc p (deltaUsage (old i) (cpu_info i)) proc_data

/- ------------------------------------------------------------------ -/
/- Process model (sys/process, used by src/src/mac/system.rs)         -/
/- ------------------------------------------------------------------ -/

/-- Process identifier (`Pid` in the source). -/
abbrev Pid := ℕ

/-- Modelled from the spec (sys/process's detail-fetch payload is not under
src/): one per-pid detail record as returned by the provider — parent id,
command line, start time, cumulative CPU ticks, resident memory. -/
structure ProcessDetail where
  parent : Option Pid
  cmd : String
  start_time : ℕ
  cpu_ticks : ℕ
  memory : ℕ

/-- Modelled from the spec (sys/process's `Process` is not under src/): pid,
parent pid, command line, start time, current/previous CPU tick counters,
current/previous resident memory, and the liveness marker `updated` that is
set on every refresh of the record. -/
structure Process where
  pid : Pid
  parent : Option Pid
  cmd : String
  start_time : ℕ
  cpu_ticks : ℕ
  old_cpu_ticks : ℕ
  memory : ℕ
  old_memory : ℕ
  updated : Bool

/-- The process registry map (`HashMap<Pid, Process>` in the source),
modelled extensionally as a partial map. -/
abbrev ProcMap := Pid → Option Process

/-- Modelled from the spec: `has_been_updated` checks the liveness marker and
clears it, returning whether the record was updated during the pass that just
ended ("a liveness marker set true on every refresh and checked before the
next refresh begins"). -/
def has_been_updated (p : Process) : Bool × Process :=
  (p.updated, { p with updated := false })

/-- Modelled from the spec: `update_process(wrap, pid, arg_max)` fetches the
pid's detail record.  On a fetch failure it returns an error and leaves the
map alone.  For a pid already in the registry it updates the record in place
through the shared map (shifting current counters to previous, installing the
fresh values, setting the liveness marker) and returns `Ok(None)`; for a new
pid it returns `Ok(Some(record))` without touching the map, the caller
inserts it.  `detail` is the provider's answer for this pid (`none` =
failure). -/
def update_process (m : ProcMap) (pid : Pid) (detail : Option ProcessDetail) :
    ProcMap × Except Unit (Option Process) :=
  match detail with
  | none => (m, Except.error ())
  | some d =>
    match m pid with
    | some p =>
      let p' : Process :=
        { p with old_cpu_ticks := p.cpu_ticks, cpu_ticks := d.cpu_ticks,
                 old_memory := p.memory, memory := d.memory, updated := true }
      (fun q => if q = pid then some p' else m q, Except.ok none)
    | none =>
      (m, Except.ok (some
        { pid := pid, parent := d.parent, cmd := d.cmd, start_time := d.start_time,
          cpu_ticks := d.cpu_ticks, old_cpu_ticks := d.cpu_ticks,
          memory := d.memory, old_memory := d.memory, updated := true }))

/-- Method `System::clear_procs` (system.rs lines 59-70): call
`has_been_updated` on every record (this clears every marker) and remove the
pids whose marker was not set. -/
def clear_procs (m : ProcMap) : ProcMap :=
  fun q =>
    match m q with
    | some p => if (has_been_updated p).1 then some (has_been_updated p).2 else none
    | none => none

/- ------------------------------------------------------------------ -/
/- struct System and its refresh methods (src/src/mac/system.rs)      -/
/- ------------------------------------------------------------------ -/

/-- The counter block of `vm_statistics64` used by `refresh_memory`
(u32 page counts, promoted to u64 by the source before arithmetic). -/
structure VmStats where
  active_count : ℕ
  inactive_count : ℕ
  wire_count : ℕ
  speculative_count : ℕ
  purgeable_count : ℕ
deriving DecidableEq, Repr

/-- Struct `System` (system.rs lines 27-41), restricted to the fields the
refresh logic under verification reads or writes (`temperatures`,
`connection`, `disks` and `port` carry no state touched by the embedded
methods). -/
structure System where
  process_list : ProcMap
  mem_total : ℕ
  mem_free : ℕ
  swap_total : ℕ
  swap_free : ℕ
  processors : List Processor
  page_size_kb : ℕ
  network : NetworkData
  uptime : ℕ

/-- The state `new_with_specifics` builds before running the requested
refreshes (system.rs lines 74-92): empty registries, zero counters, the
constructor's `network::new()`, and the page size and uptime read from the
OS, passed here as arguments. -/
def System.initial (page_size_kb uptime : ℕ) : System :=
  { process_list := fun _ => none, mem_total := 0, mem_free := 0,
    swap_total := 0, swap_free := 0, processors := [],
    page_size_kb := page_size_kb, network := network.new, uptime := uptime }

/-- Method `System::refresh_cpu` (system.rs lines 174-275).  Environment:
`up` is `get_uptime()`; `ncpu` is the `HW_NCPU` sysctl result (`none` =
`get_sys_value` failed, in which case the source falls back to 1);
`hpi` is the `host_processor_info` result (`none` = not `KERN_SUCCESS`),
giving the fresh `cpu_info` array and its length.

First refresh (empty processor list): push the aggregate entry "0" with a
null `ProcessorData`, then, if `host_processor_info` succeeded, push one
entry per core whose retained sample is the fresh array and whose usage is
`in_use / total` over the absolute cumulative ticks.  Subsequent refreshes:
if `host_processor_info` succeeded, update each entry after index 0 with the
delta usage, sum the usages, and when more than one entry exists overwrite
entry 0's usage with `sum / (len - 1)`. -/
def System.refresh_cpu (s : System) (up : ℕ) (ncpu : Option ℕ)
    (hpi : Option (CpuInfo × ℕ)) : System :=
  let s := { s with uptime := up }
  if s.processors.isEmpty then
    let num_cpu := ncpu.getD 1
    let agg := processor.create_proc "0" { cpu_info := none, num_cpu_info := 0 }
    match hpi with
    | some (cpu_info, num_cpu_info) =>
      let proc_data : ProcessorData :=
        { cpu_info := some cpu_info, num_cpu_info := num_cpu_info }
      let cores := (List.range num_cpu).map (fun i =>
        processor.set_cpu_proc
          (processor.create_proc (toString (i + 1)) proc_data)
          (firstUsage (cpu_info i)))
      { s with processors := agg :: cores }
    | none => { s with processors := [agg] }
  else
    match hpi with
    | some (cpu_info, num_cpu_info) =>
      let proc_data : ProcessorData :=
        { cpu_info := some cpu_info, num_cpu_info := num_cpu_info }
      match s.processors with
      | [] => s
      | agg :: cores =>
        let newCores := cores.mapIdx (fun i p => coreUpdate cpu_info proc_data i p)
        let pourcent :=
          newCores.foldl (fun acc p => addf acc p.get_cpu_usage) (some 0)
        if (agg :: newCores).length > 1 then
          let len := (agg :: newCores).length - 1
          let agg' := processor.set_cpu_usage agg (pourcent.map (fun x => x / (len : ℚ)))
          { s with processors := agg' :: newCores }
        else
          { s with processors := agg :: newCores }
    | none => s

/-- Method `System::refresh_memory` (system.rs lines 94-150).  Environment:
`up` is `get_uptime()`; `swap` is the `VM_SWAPUSAGE` sysctl result
(`xsu_total`, `xsu_avail` in bytes; `none` = failure); `memsize` is the
`HW_MEMSIZE` sysctl result (`none` = failure, which leaves the out-variable
untouched); `vm` is the `host_statistics64` result (`none` = failure).  The
`>> 10` shifts of the source are the divisions by 1024; the page-count
arithmetic is u64 and its subtractions may wrap. -/
def System.refresh_memory (s : System) (up : ℕ) (swap : Option (ℕ × ℕ))
    (memsize : Option ℕ) (vm : Option VmStats) : System :=
  let s := { s with uptime := up }
  let s :=
    match swap with
    | some (t, a) => { s with swap_total := t / 2 ^ 10, swap_free := a / 2 ^ 10 }
    | none => s
  let s :=
    if s.mem_total < 1 then { s with mem_total := memsize.getD s.mem_total / 2 ^ 10 }
    else s
  match vm with
  | some v =>
    let used_pages :=
      wsub64 ((v.active_count + v.inactive_count + v.wire_count +
               v.speculative_count) % U64MOD) v.purgeable_count
    { s with mem_free := wsub64 s.mem_total ((used_pages * s.page_size_kb) % U64MOD) }
  | none => s

/-- Method `System::refresh_network` (system.rs lines 277-279). -/
def System.refresh_network (s : System) (env : NetEnv) : System :=
  { s with network := update_network s.network env }

/-- One step of the parallel scan of `refresh_processes` (system.rs lines
288-296): run `update_process` on one pid; an `Ok(Some(_))` result is
collected into the entry list, `Ok(None)` (an in-place update) and `Err`
(a vanished pid, silently dropped by `flat_map`) add nothing. -/
def scanStep (details : Pid → Option ProcessDetail)
    (acc : ProcMap × List Process) (pid : Pid) : ProcMap × List Process :=
  match update_process acc.1 pid (details pid) with
  | (m', Except.ok (some p)) => (m', acc.2 ++ [p])
  | (m', Except.ok none) => (m', acc.2)
  | (m', Except.error _) => (m', acc.2)

/-- Method `System::refresh_processes` (system.rs lines 281-302).
Environment: `count` is the `proc_listallpids(null, 0)` pid count (a C int);
`pids` is the `get_proc_list()` result (`none` = failure); `details` is the
per-pid provider answer consumed by `update_process`.  When `count < 1` or
the pid list is unavailable the method returns without touching anything.
Otherwise: scan every listed pid (the parallel fan-out, modelled
sequentially — in-place updates of distinct pids commute), insert the
collected new entries, then run `clear_procs`. -/
def System.refresh_processes (s : System) (count : ℤ)
    (pids : Option (List Pid)) (details : Pid → Option ProcessDetail) : System :=
  if count < 1 then s
  else
    match pids with
    | none => s
    | some l =>
      let scanned := l.foldl (scanStep details) (s.process_list, [])
      let afterInsert :=
        scanned.2.foldl (fun m p => fun q => if q = p.pid then some p else m q) scanned.1
      { s with process_list := clear_procs afterInsert }

/-- Method `System::refresh_process` (system.rs lines 304-317): run
`update_process` for the one pid; insert the record on `Ok(Some(_))` and
return `true`, return `true` on `Ok(None)` (the in-place update case),
return `false` on `Err` with the registry untouched. -/
def System.refresh_process (s : System) (pid : Pid)
    (detail : Option ProcessDetail) : System × Bool :=
  match update_process s.process_list pid detail with
  | (m', Except.ok (some p)) =>
    ({ s with process_list := fun q => if q = p.pid then some p else m' q }, true)
  | (m', Except.ok none) => ({ s with process_list := m' }, true)
  | (_, Except.error _) => (s, false)

/-- Accessor `get_process` (system.rs lines 337-339). -/
def System.get_process (s : System) (pid : Pid) : Option Process :=
  s.process_list pid

/-- Accessor `get_processor_list` (system.rs lines 341-343). -/
def System.get_processor_list (s : System) : List Processor := s.processors

/-- Accessor `get_network` (system.rs lines 345-347). -/
def System.get_network (s : System) : NetworkData := s.network

/-- Accessor `get_total_swap` (system.rs lines 361-363). -/
def System.get_total_swap (s : System) : ℕ := s.swap_total

/-- Accessor `get_free_swap` (system.rs lines 365-367). -/
def System.get_free_swap (s : System) : ℕ := s.swap_free

/- ------------------------------------------------------------------ -/
/- Concrete tick samples used as test inputs (the spec's CPU scenario)-/
/- ------------------------------------------------------------------ -/

/-- The spec scenario's first sample per core: `{user:100, sys:50, nice:0,
idle:850}`. -/
def ticksA : Ticks := { user := 100, system := 50, nice := 0, idle := 850 }

/-- The spec scenario's second sample per core: `{user:150, sys:60, nice:0,
idle:890}`. -/
def ticksB : Ticks := { user := 150, system := 60, nice := 0, idle := 890 }

/-- An all-zero tick tuple. -/
def ticksZ : Ticks := { user := 0, system := 0, nice := 0, idle := 0 }

/-- A cpu_info array reporting `ticksA` for every core. -/
def ciA : CpuInfo := fun _ => ticksA

/-- A cpu_info array reporting `ticksB` for every core. -/
def ciB : CpuInfo := fun _ => ticksB

/-- A cpu_info array reporting all-zero ticks for every core. -/
def ciZ : CpuInfo := fun _ => ticksZ


/- ------------------------------------------------------------------ -/
/- Basic lemmas about the network model                               -/
/- ------------------------------------------------------------------ -/

theorem wsub64_of_le {a b : ℕ} (h : b ≤ a) (ha : a < U64MOD) : wsub64 a b = a - b := by
  unfold wsub64
  have h1 : U64MOD + a - b = U64MOD + (a - b) := by omega
  rw [h1, Nat.add_mod_left]
  exact Nat.mod_eq_of_lt (by omega)

theorem wsub64_of_lt {a b : ℕ} (h : a < b) (hb : b < U64MOD) :
    wsub64 a b = U64MOD + a - b := by
  unfold wsub64
  exact Nat.mod_eq_of_lt (by omega)

theorem read_things_isOk (env : NetEnv) : ∃ p, read_things env = Except.ok p := by
  cases env with
  | none => exact ⟨(0, 0), rfl⟩
  | some entries => exact ⟨_, rfl⟩

theorem update_network_shifts (n : NetworkData) (env : NetEnv) :
    (update_network n env).old_in = n.current_in ∧
    (update_network n env).old_out = n.current_out := by
  obtain ⟨p, hp⟩ := read_things_isOk env
  unfold update_network
  rw [hp]
  exact ⟨rfl, rfl⟩

theorem read_things_lt (env : NetEnv) (p : ℕ × ℕ)
    (h : read_things env = Except.ok p) : p.1 < U64MOD ∧ p.2 < U64MOD := by
  cases env with
  | none =>
    simp only [read_things] at h
    cases h
    exact ⟨by norm_num [U64MOD], by norm_num [U64MOD]⟩
  | some entries =>
    simp only [read_things, Except.ok.injEq] at h
    subst h
    induction entries using List.reverseRecOn with
    | nil => exact ⟨by norm_num [U64MOD], by norm_num [U64MOD]⟩
    | append_singleton xs x ih =>
      rw [List.foldl_append, List.foldl_cons, List.foldl_nil]
      by_cases hx : x.entry_ok
      · simp only [hx, if_true]
        constructor <;> exact Nat.mod_lt _ (by norm_num [U64MOD])
      · simp only [hx, if_false]
        exact ih


/- ------------------------------------------------------------------ -/
/- Claim C1: clamped subtraction in get_income / get_outcome          -/
/- ------------------------------------------------------------------ -/

/-- C1 counterexample: the claim says that when `current < previous` the
accessors return `0`.  With `old_in = 1` and `current_in = 0` the u64
subtraction `current_in - old_in` underflows and `get_income` returns
`2^64 - 1`, not `0`. -/
theorem C1_counterexample :
    ({ old_in := 1, old_out := 0, current_in := 0, current_out := 0 } :
        NetworkData).current_in
      < ({ old_in := 1, old_out := 0, current_in := 0, current_out := 0 } :
        NetworkData).old_in ∧
    NetworkData.get_income
        { old_in := 1, old_out := 0, current_in := 0, current_out := 0 }
      = 2 ^ 64 - 1 ∧
    NetworkData.get_income
        { old_in := 1, old_out := 0, current_in := 0, current_out := 0 }
      ≠ 0 := by
  refine ⟨by norm_num, ?_, ?_⟩ <;>
    norm_num [NetworkData.get_income, wsub64, U64MOD]

/-- C1 (amended): `get_income`/`get_outcome` return `current - previous`
when `current ≥ previous`; when `current < previous` they perform the
unchecked u64 subtraction, returning the wrapped value
`current - previous + 2^64` (a debug build would panic) instead of `0`. -/
theorem C1_amended_thm (n : NetworkData)
    (hci : n.current_in < U64MOD) (hoi : n.old_in < U64MOD)
    (hco : n.current_out < U64MOD) (hoo : n.old_out < U64MOD) :
    (n.old_in ≤ n.current_in → n.get_income = n.current_in - n.old_in) ∧
    (n.current_in < n.old_in →
      n.get_income = U64MOD + n.current_in - n.old_in) ∧
    (n.old_out ≤ n.current_out → n.get_outcome = n.current_out - n.old_out) ∧
    (n.current_out < n.old_out →
      n.get_outcome = U64MOD + n.current_out - n.old_out) := by
  refine ⟨fun h => ?_, fun h => ?_, fun h => ?_, fun h => ?_⟩
  · exact wsub64_of_le h hci
  · exact wsub64_of_lt h hoi
  · exact wsub64_of_le h hco
  · exact wsub64_of_lt h hoo

/-- C1 witness: evaluating the amended theorem at a concrete pair in each
regime. -/
theorem C1_witness :
    NetworkData.get_income
        { old_in := 3, old_out := 0, current_in := 10, current_out := 0 } = 7 ∧
    NetworkData.get_outcome
        { old_in := 0, old_out := 8, current_in := 0, current_out := 2 }
      = U64MOD + 2 - 8 := by
  constructor
  · exact (C1_amended_thm
      { old_in := 3, old_out := 0, current_in := 10, current_out := 0 }
      (by norm_num [U64MOD]) (by norm_num [U64MOD])
      (by norm_num [U64MOD]) (by norm_num [U64MOD])).1 (by norm_num)
  · exact (C1_amended_thm
      { old_in := 0, old_out := 8, current_in := 0, current_out := 2 }
      (by norm_num [U64MOD]) (by norm_num [U64MOD])
      (by norm_num [U64MOD]) (by norm_num [U64MOD])).2.2.2 (by norm_num)

/- ------------------------------------------------------------------ -/
/- Claim C3: zero delta on construction and after the first refresh   -/
/- ------------------------------------------------------------------ -/

/-- C3 counterexample: after the very first successful refresh (here the
provider reports one interface with rx = 1000 and tx = 500 bytes), the
previous counters still hold the constructor's zeros while the current
counters hold the fetched totals, so `previous = current` fails and the
delta is the full cumulative total, not zero. -/
theorem C3_counterexample :
    (update_network network.new
        (some [{ entry_ok := true, rx := some 1000, tx := some 500 }])).old_in
      ≠ (update_network network.new
        (some [{ entry_ok := true, rx := some 1000, tx := some 500 }])).current_in ∧
    (update_network network.new
        (some [{ entry_ok := true, rx := some 1000, tx := some 500 }])).get_income
      = 1000 := by
  constructor
  · norm_num [update_network, read_things, network.new, U64MOD]
  · norm_num [update_network, read_things, network.new,
      NetworkData.get_income, wsub64, U64MOD]

/-- C3 (amended): on a freshly constructed `NetworkData` all counters are
zero, so `previous = current` and both deltas are `0`; immediately after the
first successful refresh the previous counters are still the constructor's
zeros while the current counters hold the fetched totals, so `get_income`
and `get_outcome` return the full fetched totals (zero only when the fetched
totals are zero), not a forced zero delta. -/
theorem C3_amended_thm (env : NetEnv) :
    network.new.old_in = network.new.current_in ∧
    network.new.old_out = network.new.current_out ∧
    network.new.get_income = 0 ∧
    network.new.get_outcome = 0 ∧
    (update_network network.new env).old_in = 0 ∧
    (update_network network.new env).old_out = 0 ∧
    (update_network network.new env).get_income
      = (update_network network.new env).current_in ∧
    (update_network network.new env).get_outcome
      = (update_network network.new env).current_out := by
  obtain ⟨⟨a, b⟩, hp⟩ := read_things_isOk env
  obtain ⟨h1, h2⟩ := read_things_lt env (a, b) hp
  have hu : update_network network.new env
      = { old_in := 0, old_out := 0, current_in := a, current_out := b } := by
    unfold update_network
    rw [hp]
    rfl
  refine ⟨rfl, rfl,
    by norm_num [network.new, NetworkData.get_income, wsub64, U64MOD],
    by norm_num [network.new, NetworkData.get_outcome, wsub64, U64MOD],
    ?_, ?_, ?_, ?_⟩ <;> rw [hu]
  · show wsub64 a 0 = a
    rw [wsub64_of_le (Nat.zero_le a) h1]
    omega
  · show wsub64 b 0 = b
    rw [wsub64_of_le (Nat.zero_le b) h2]
    omega

/- ------------------------------------------------------------------ -/
/- Claim C7: behavior of update_network under read failure            -/
/- ------------------------------------------------------------------ -/

/-- C7 counterexample: the claim says a failed provider read leaves the
state completely unchanged.  When the directory read of `/sys/class/net`
fails, `read_things` swallows the failure and returns `Ok((0, 0))`, so the
state is still shifted: previous takes the old current values and current
becomes `(0, 0)`. -/
theorem C7_counterexample :
    update_network
        { old_in := 5, old_out := 5, current_in := 10, current_out := 10 } none
      = { old_in := 10, old_out := 10, current_in := 0, current_out := 0 } ∧
    update_network
        { old_in := 5, old_out := 5, current_in := 10, current_out := 10 } none
      ≠ { old_in := 5, old_out := 5, current_in := 10, current_out := 10 } := by
  exact ⟨by decide, by decide⟩

/-- C7 (amended): `update_network` never propagates an error to the caller —
`read_things` has no reachable error return, because the directory-read
failure is swallowed (yielding totals `(0, 0)`) and each per-interface read
or parse failure is coerced to `0` — but consequently a failed read does NOT
leave the state unchanged: the generation shift happens on every call, with
previous taking the old current values and current taking the (possibly
zero-coerced) freshly summed totals. -/
theorem C7_amended_thm (n : NetworkData) (env : NetEnv) :
    (∃ p, read_things env = Except.ok p) ∧
    (update_network n env).old_in = n.current_in ∧
    (update_network n env).old_out = n.current_out ∧
    update_network n none
      = { old_in := n.current_in, old_out := n.current_out,
          current_in := 0, current_out := 0 } := by
  refine ⟨read_things_isOk env, (update_network_shifts n env).1,
    (update_network_shifts n env).2, rfl⟩

/- ------------------------------------------------------------------ -/
/- Basic lemmas about the wrapping i32 tick arithmetic                -/
/- ------------------------------------------------------------------ -/

theorem wrap32_eq_self {z : ℤ} (h1 : -(2 ^ 31) ≤ z) (h2 : z < 2 ^ 31) :
    wrap32 z = z := by
  unfold wrap32
  rw [Int.emod_eq_of_lt (by omega) (by omega)]
  ring

theorem wrap32_add_left (a b : ℤ) : wrap32 (wrap32 a + b) = wrap32 (a + b) := by
  unfold wrap32
  omega


/- ------------------------------------------------------------------ -/
/- Claim C2: state of the processor registry after the first refresh  -/
/- ------------------------------------------------------------------ -/

/-- C2 counterexample: the spec's own scenario — a fresh System whose
provider reports 2 cores with ticks `{user:100, sys:50, nice:0, idle:850}`.
The registry does get 3 entries, but the per-core usage after the first
`refresh_cpu` is `150/1000 = 3/20`, the busy share of the cumulative first
sample, not `0.0` as the claim states. -/
theorem C2_counterexample :
    ((System.initial 4 100).refresh_cpu 100 (some 2) (some (ciA, 8))).processors.length
      = 3 ∧
    ((((System.initial 4 100).refresh_cpu 100 (some 2) (some (ciA, 8))).processors.get?
        1).map Processor.get_cpu_usage = some (some (3 / 20))) ∧
    some (some ((3 : ℚ) / 20)) ≠ some (some (0 : ℚ)) := by
  have hlist : ((System.initial 4 100).refresh_cpu 100 (some 2)
      (some (ciA, 8))).processors
      = [processor.create_proc "0" { cpu_info := none, num_cpu_info := 0 },
         processor.set_cpu_proc
           (processor.create_proc "1" { cpu_info := some ciA, num_cpu_info := 8 })
           (firstUsage ticksA),
         processor.set_cpu_proc
           (processor.create_proc "2" { cpu_info := some ciA, num_cpu_info := 8 })
           (firstUsage ticksA)] := by
    rfl
  refine ⟨?_, ?_, ?_⟩
  · rw [hlist]
    rfl
  · rw [hlist]
    simp only [List.get?_cons_succ, List.get?_cons_zero, Option.map_some,
      processor.set_cpu_proc, processor.create_proc, Processor.get_cpu_usage]
    norm_num [firstUsage, divf, busyTicks, wrap32, ticksA]
    rfl
  · simp only [ne_eq, Option.some.injEq]
    norm_num

/-- C2 (amended): on the first `refresh_cpu` of a fresh System with a
successful `host_processor_info` call, the registry is built with
`num_cpu + 1` entries (`num_cpu` being the HW_NCPU answer, defaulting to 1
on sysctl failure): the aggregate entry at index 0 carries usage `0.0` and a
null retained sample, and the entry for core `i` carries the first sample
itself as its retained (previous) generation — not zero counters — and a
usage equal to `in_use / total` of the cumulative first sample computed
with the source's wrapping i32 arithmetic (`firstUsage`), which reads `0.0`
exactly when the wrapped busy sum is zero — zero busy ticks, or a busy sum
that overflows i32 and wraps to zero. -/
theorem C2_amended_thm (page up up2 : ℕ) (ncpu : Option ℕ) (ci : CpuInfo) (k : ℕ) :
    ((System.initial page up).refresh_cpu up2 ncpu (some (ci, k))).processors.length
      = ncpu.getD 1 + 1 ∧
    ((((System.initial page up).refresh_cpu up2 ncpu (some (ci, k))).processors.get?
        0).map Processor.get_cpu_usage = some (some 0)) ∧
    (∀ i, i < ncpu.getD 1 →
      ∃ p, ((System.initial page up).refresh_cpu up2 ncpu
            (some (ci, k))).processors.get? (i + 1) = some p ∧
        p.processor_data.cpu_info = some ci ∧
        p.get_cpu_usage = firstUsage (ci i)) ∧
    firstUsage { user := 2 ^ 31 - 1, system := 2 ^ 31 - 1, nice := 2,
                 idle := 1000 } = some 0 := by
  refine ⟨?_, ?_, ?_, ?_⟩
  · simp [System.refresh_cpu, System.initial]
  · simp [System.refresh_cpu, System.initial, processor.create_proc,
      Processor.get_cpu_usage]
  · intro i hi
    refine ⟨processor.set_cpu_proc
      (processor.create_proc (toString (i + 1))
        { cpu_info := some ci, num_cpu_info := k })
      (firstUsage (ci i)), ?_, rfl, rfl⟩
    simp only [System.refresh_cpu, System.initial, List.isEmpty_nil, if_true]
    rw [List.get?_cons_succ, List.get?_map, List.get?_range hi]
    rfl
  · norm_num [firstUsage, divf, busyTicks, wrap32]

/-- C2 witness: the amended theorem evaluated on the 2-core scenario. -/
theorem C2_witness :
    ∃ p, ((System.initial 4 100).refresh_cpu 100 (some 2)
        (some (ciA, 8))).processors.get? 1 = some p ∧
      p.get_cpu_usage = firstUsage ticksA := by
  obtain ⟨p, h1, _, h3⟩ := (C2_amended_thm 4 100 100 (some 2) ciA 8).2.2.1 0
    (by norm_num)
  exact ⟨p, h1, h3⟩

/- ------------------------------------------------------------------ -/
/- Claim C5: division by a zero total tick count                      -/
/- ------------------------------------------------------------------ -/

/-- C5 counterexample: the usage computation has no zero-total guard.  On a
first refresh whose sample reports all-zero ticks for a core, the computed
usage is `0/0`, a NaN (non-finite, modelled `none`) — not the `0.0` the
claim requires, and not a value inside `[0, 1]`. -/
theorem C5_counterexample :
    ((((System.initial 4 0).refresh_cpu 0 (some 1) (some (ciZ, 4))).processors.get?
        1).map Processor.get_cpu_usage = some none) ∧
    some (none : Option ℚ) ≠ some (some (0 : ℚ)) := by
  have hlist : ((System.initial 4 0).refresh_cpu 0 (some 1)
      (some (ciZ, 4))).processors
      = [processor.create_proc "0" { cpu_info := none, num_cpu_info := 0 },
         processor.set_cpu_proc
           (processor.create_proc "1" { cpu_info := some ciZ, num_cpu_info := 4 })
           (firstUsage ticksZ)] := by
    rfl
  constructor
  · rw [hlist]
    simp only [List.get?_cons_succ, List.get?_cons_zero, Option.map_some,
      processor.set_cpu_proc, processor.create_proc, Processor.get_cpu_usage]
    norm_num [firstUsage, divf, busyTicks, wrap32, ticksZ]
    rfl
  · simp

/-- C5 (amended): the per-core usage computation divides without a zero
guard: when the wrapped i32 total tick count is zero the result is a
non-finite f32 (NaN from `0/0`), not `0.0`.  When the ticks are non-negative
and their exact sum fits in i32 (no overflow) and is non-zero, the ratio
does lie in `[0.0, 1.0]`; the delta-refresh site computes the same function
of the wrapped tick deltas, and an in-range counter step reduces to the same
analysis.  When the i32 sum overflows, the wrapping arithmetic can also
produce finite values far outside `[0, 1]`: at the valid ticks
`{user: 2^31-1, system: 1, nice: 0, idle: 2^31-2}` the computed usage is
`2^30`. -/
theorem C5_amended_thm (t : Ticks) :
    (wrap32 (busyTicks t + t.idle) = 0 → firstUsage t = none) ∧
    (0 ≤ t.user → 0 ≤ t.system → 0 ≤ t.nice → 0 ≤ t.idle →
      t.user + t.system + t.nice + t.idle < 2 ^ 31 →
      t.user + t.system + t.nice + t.idle ≠ 0 →
      ∃ q, firstUsage t = some q ∧ 0 ≤ q ∧ q ≤ 1) ∧
    (∀ told : Ticks, -(2 ^ 31) ≤ t.user → t.user < 2 ^ 31 →
      -(2 ^ 31) ≤ t.system → t.system < 2 ^ 31 →
      -(2 ^ 31) ≤ t.nice → t.nice < 2 ^ 31 →
      -(2 ^ 31) ≤ t.idle → t.idle < 2 ^ 31 →
      deltaUsage told
        { user := told.user + t.user, system := told.system + t.system,
          nice := told.nice + t.nice, idle := told.idle + t.idle }
        = firstUsage t) ∧
    firstUsage { user := 2 ^ 31 - 1, system := 1, nice := 0, idle := 2 ^ 31 - 2 }
      = some (2 ^ 30) := by
  refine ⟨?_, ?_, ?_, ?_⟩
  · intro h
    have hc : ((wrap32 (busyTicks t + t.idle) : ℤ) : ℚ) = 0 := by
      exact_mod_cast congrArg (fun z : ℤ => (z : ℚ)) h
    unfold firstUsage divf
    rw [if_pos hc]
  · intro hu hs hn hi hlt hne
    have hb : busyTicks t = t.user + t.system + t.nice := by
      unfold busyTicks
      exact wrap32_eq_self (by omega) (by omega)
    have ht : wrap32 (t.user + t.system + t.nice + t.idle)
        = t.user + t.system + t.nice + t.idle :=
      wrap32_eq_self (by omega) (by omega)
    have htot : (0 : ℚ) < ((t.user + t.system + t.nice + t.idle : ℤ) : ℚ) := by
      have h0 : (0 : ℤ) < t.user + t.system + t.nice + t.idle := by omega
      exact_mod_cast h0
    refine ⟨((t.user + t.system + t.nice : ℤ) : ℚ)
        / ((t.user + t.system + t.nice + t.idle : ℤ) : ℚ), ?_, ?_, ?_⟩
    · unfold firstUsage divf
      rw [hb, ht, if_neg (ne_of_gt htot)]
    · refine div_nonneg ?_ (le_of_lt htot)
      have h0 : (0 : ℤ) ≤ t.user + t.system + t.nice := by omega
      exact_mod_cast h0
    · rw [div_le_one htot]
      have hle : t.user + t.system + t.nice
          ≤ t.user + t.system + t.nice + t.idle := by omega
      exact_mod_cast hle
  · intro told hu1 hu2 hs1 hs2 hn1 hn2 hi1 hi2
    have harg : deltaTicks told
        { user := told.user + t.user, system := told.system + t.system,
          nice := told.nice + t.nice, idle := told.idle + t.idle } = t := by
      have e : deltaTicks told
          { user := told.user + t.user, system := told.system + t.system,
            nice := told.nice + t.nice, idle := told.idle + t.idle }
          = { user := wrap32 (told.user + t.user - told.user),
              system := wrap32 (told.system + t.system - told.system),
              nice := wrap32 (told.nice + t.nice - told.nice),
              idle := wrap32 (told.idle + t.idle - told.idle) } := rfl
      rw [e, add_sub_cancel_left, add_sub_cancel_left, add_sub_cancel_left,
        add_sub_cancel_left, wrap32_eq_self hu1 hu2, wrap32_eq_self hs1 hs2,
        wrap32_eq_self hn1 hn2, wrap32_eq_self hi1 hi2]
    unfold deltaUsage
    rw [harg]
  · norm_num [firstUsage, divf, busyTicks, wrap32]

/-- C5 witness: the regimes of the amended theorem at concrete ticks:
all-zero ticks give a non-finite usage, and the in-range ticks
`{30, 20, 10, 40}` give a usage inside `[0, 1]`. -/
theorem C5_witness :
    firstUsage ticksZ = none ∧
    ∃ q, firstUsage { user := 30, system := 20, nice := 10, idle := 40 }
        = some q ∧ 0 ≤ q ∧ q ≤ 1 := by
  constructor
  · exact (C5_amended_thm ticksZ).1 (by norm_num [busyTicks, wrap32, ticksZ])
  · exact (C5_amended_thm { user := 30, system := 20, nice := 10, idle := 40 }).2.1
      (by norm_num) (by norm_num) (by norm_num) (by norm_num)
      (by norm_num) (by norm_num)

/- ------------------------------------------------------------------ -/
/- Claim C4: aggregate entry versus mean of core usages               -/
/- ------------------------------------------------------------------ -/

theorem foldl_addf_some (l : List Processor) (q : ℚ)
    (h : ∀ p ∈ l, p.get_cpu_usage ≠ none) :
    l.foldl (fun acc p => addf acc p.get_cpu_usage) (some q)
      = some (q + (l.map (fun p => (p.get_cpu_usage).getD 0)).sum) := by
  induction l generalizing q with
  | nil => simp
  | cons p l ih =>
    obtain ⟨u, hu⟩ := Option.ne_none_iff_exists'.mp (h p (by simp))
    rw [List.foldl_cons, List.map_cons, List.sum_cons]
    rw [show addf (some q) p.get_cpu_usage = some (q + u) by rw [hu]; rfl]
    rw [ih (q + u) (fun r hr => h r (List.mem_cons_of_mem p hr)), hu]
    simp only [Option.getD_some, Option.some.injEq]
    ring

theorem refresh_cpu_subsequent (s : System) (up : ℕ) (ncpu : Option ℕ)
    (ci : CpuInfo) (k : ℕ) (agg : Processor) (cores : List Processor)
    (hs : s.processors = agg :: cores) (hcore : cores ≠ []) :
    (s.refresh_cpu up ncpu (some (ci, k))).processors
      = processor.set_cpu_usage agg
          (((cores.mapIdx (fun i p =>
              coreUpdate ci { cpu_info := some ci, num_cpu_info := k } i p)).foldl
              (fun acc p => addf acc p.get_cpu_usage) (some 0)).map
            (fun x => x / ((cores.length : ℕ) : ℚ)))
        :: cores.mapIdx (fun i p =>
            coreUpdate ci { cpu_info := some ci, num_cpu_info := k } i p) := by
  have hpos : 0 < cores.length := List.length_pos.mpr hcore
  unfold System.refresh_cpu
  simp only [hs, List.isEmpty_cons, Bool.false_eq_true, if_false,
    List.length_mapIdx, List.length_cons]
  rw [if_pos (by omega)]
  simp

/-- C4 counterexample: the claim quantifies over EVERY `refresh_cpu` call,
but on the first refresh the aggregate entry is created with usage `0.0` and
never recomputed: with the spec's 2-core scenario the cores read `3/20` each
(mean `3/20`) while the aggregate reads `0`. -/
theorem C4_counterexample :
    ((((System.initial 4 100).refresh_cpu 100 (some 2) (some (ciA, 8))).processors.get?
        0).map Processor.get_cpu_usage = some (some 0)) ∧
    ((((System.initial 4 100).refresh_cpu 100 (some 2)
          (some (ciA, 8))).processors.tail).map
        (fun p => (p.get_cpu_usage).getD 0)).sum
      / ((((System.initial 4 100).refresh_cpu 100 (some 2)
          (some (ciA, 8))).processors.tail).length : ℚ) = 3 / 20 ∧
    some (some ((0 : ℚ))) ≠ some (some ((3 : ℚ) / 20)) := by
  have hlist : ((System.initial 4 100).refresh_cpu 100 (some 2)
      (some (ciA, 8))).processors
      = [processor.create_proc "0" { cpu_info := none, num_cpu_info := 0 },
         processor.set_cpu_proc
           (processor.create_proc "1" { cpu_info := some ciA, num_cpu_info := 8 })
           (firstUsage ticksA),
         processor.set_cpu_proc
           (processor.create_proc "2" { cpu_info := some ciA, num_cpu_info := 8 })
           (firstUsage ticksA)] := by
    rfl
  refine ⟨?_, ?_, ?_⟩
  · rw [hlist]
    rfl
  · rw [hlist]
    simp only [List.tail_cons, List.map_cons, List.map_nil, List.sum_cons,
      List.sum_nil, List.length_cons, List.length_nil,
      processor.set_cpu_proc, processor.create_proc, Processor.get_cpu_usage]
    norm_num [firstUsage, divf, busyTicks, wrap32, ticksA]
  · simp only [ne_eq, Option.some.injEq]
    norm_num

/-- C4 (amended): on every `refresh_cpu` call on an already-initialised
registry (non-empty processor list, at least one core entry) in which the
tick sample succeeds and every per-core usage computed in the pass is
finite, the aggregate entry at index 0 reads exactly the arithmetic mean of
the per-core usages of that pass.  On the FIRST refresh the aggregate is not
recomputed and keeps its initial `0.0`. -/
theorem C4_amended_thm (s : System) (up : ℕ) (ncpu : Option ℕ) (ci : CpuInfo)
    (k : ℕ) (agg : Processor) (cores : List Processor)
    (hs : s.processors = agg :: cores) (hcore : cores ≠ [])
    (hfin : ∀ p ∈ (s.refresh_cpu up ncpu (some (ci, k))).processors.tail,
      p.get_cpu_usage ≠ none) :
    ((s.refresh_cpu up ncpu (some (ci, k))).processors.get? 0).map
        Processor.get_cpu_usage
      = some (some
          ((((s.refresh_cpu up ncpu (some (ci, k))).processors.tail).map
              (fun p => (p.get_cpu_usage).getD 0)).sum
            / (((s.refresh_cpu up ncpu (some (ci, k))).processors.tail).length : ℚ))) := by
  have hres := refresh_cpu_subsequent s up ncpu ci k agg cores hs hcore
  rw [hres] at hfin ⊢
  simp only [List.tail_cons] at hfin ⊢
  rw [foldl_addf_some _ 0 hfin]
  simp [processor.set_cpu_usage, Processor.get_cpu_usage, List.length_mapIdx,
    zero_add]

/-- C4 witness: the spec's two-refresh scenario (samples `ticksA` then
`ticksB` on 2 cores): each core's delta usage is `60/100` and the aggregate
reads their mean `3/5`. -/
theorem C4_witness :
    ((((System.initial 4 100).refresh_cpu 100 (some 2)
        (some (ciA, 8))).refresh_cpu 101 (some 2) (some (ciB, 8))).processors.get?
      0).map Processor.get_cpu_usage = some (some (3 / 5)) := by
  have hs1 : ((System.initial 4 100).refresh_cpu 100 (some 2)
      (some (ciA, 8))).processors
      = processor.create_proc "0" { cpu_info := none, num_cpu_info := 0 }
        :: [processor.set_cpu_proc
              (processor.create_proc "1" { cpu_info := some ciA, num_cpu_info := 8 })
              (firstUsage ticksA),
            processor.set_cpu_proc
              (processor.create_proc "2" { cpu_info := some ciA, num_cpu_info := 8 })
              (firstUsage ticksA)] := by
    rfl
  have hdv : deltaUsage ticksA ticksB = some (3 / 5) := by
    norm_num [deltaUsage, firstUsage, deltaTicks, divf, busyTicks, wrap32, ticksA, ticksB]
  have hres := refresh_cpu_subsequent
    ((System.initial 4 100).refresh_cpu 100 (some 2) (some (ciA, 8)))
    101 (some 2) ciB 8 _ _ hs1 (by simp)
  have hfin : ∀ p ∈ (((System.initial 4 100).refresh_cpu 100 (some 2)
      (some (ciA, 8))).refresh_cpu 101 (some 2) (some (ciB, 8))).processors.tail,
      p.get_cpu_usage ≠ none := by
    rw [hres]
    intro p hp
    simp only [List.tail_cons, List.mapIdx_cons, List.mapIdx_nil,
      List.mem_cons, List.not_mem_nil, or_false] at hp
    rcases hp with h | h
    · subst h
      rw [show (coreUpdate ciB { cpu_info := some ciB, num_cpu_info := 8 } 0
          (processor.set_cpu_proc
            (processor.create_proc "1" { cpu_info := some ciA, num_cpu_info := 8 })
            (firstUsage ticksA))).get_cpu_usage = deltaUsage ticksA ticksB from rfl,
        hdv]
      simp
    · subst h
      rw [show (coreUpdate ciB { cpu_info := some ciB, num_cpu_info := 8 } (0 + 1)
          (processor.set_cpu_proc
            (processor.create_proc "2" { cpu_info := some ciA, num_cpu_info := 8 })
            (firstUsage ticksA))).get_cpu_usage = deltaUsage ticksA ticksB from rfl,
        hdv]
      simp
  have h := C4_amended_thm
    ((System.initial 4 100).refresh_cpu 100 (some 2) (some (ciA, 8)))
    101 (some 2) ciB 8 _ _ hs1 (by simp) hfin
  rw [h, hres]
  simp only [List.tail_cons, List.mapIdx_cons, List.mapIdx_nil, List.map_cons,
    List.map_nil, List.sum_cons, List.sum_nil, List.length_cons, List.length_nil]
  rw [show (coreUpdate ciB { cpu_info := some ciB, num_cpu_info := 8 } 0
      (processor.set_cpu_proc
        (processor.create_proc "1" { cpu_info := some ciA, num_cpu_info := 8 })
        (firstUsage ticksA))).get_cpu_usage = deltaUsage ticksA ticksB from rfl]
  rw [show (coreUpdate ciB { cpu_info := some ciB, num_cpu_info := 8 } (0 + 1)
      (processor.set_cpu_proc
        (processor.create_proc "2" { cpu_info := some ciA, num_cpu_info := 8 })
        (firstUsage ticksA))).get_cpu_usage = deltaUsage ticksA ticksB from rfl]
  rw [hdv]
  norm_num

/- ------------------------------------------------------------------ -/
/- Claim C9: swap read failure leaves swap values unchanged           -/
/- ------------------------------------------------------------------ -/

/-- C9: if the `VM_SWAPUSAGE` sysctl fails during `refresh_memory` (the
`swap` argument is `none`), the previously known `swap_total` and
`swap_free` are left unchanged — they are not zeroed. -/
theorem C9_thm (s : System) (up : ℕ) (memsize : Option ℕ) (vm : Option VmStats) :
    (s.refresh_memory up none memsize vm).swap_total = s.swap_total ∧
    (s.refresh_memory up none memsize vm).swap_free = s.swap_free := by
  unfold System.refresh_memory
  cases vm <;> by_cases h : s.mem_total < 1 <;> simp [h]

/- ------------------------------------------------------------------ -/
/- Claim C10: refresh_processes with no usable pid list is a no-op    -/
/- ------------------------------------------------------------------ -/

/-- C10: when the initial pid count is below 1, or the pid list fetch
returns nothing, `refresh_processes` leaves the whole System — in
particular the process registry — completely unchanged. -/
theorem C10_thm (s : System) (count : ℤ) (pids : Option (List Pid))
    (details : Pid → Option ProcessDetail) (h : count < 1 ∨ pids = none) :
    s.refresh_processes count pids details = s := by
  unfold System.refresh_processes
  rcases h with h | h
  · rw [if_pos h]
  · subst h
    by_cases hc : count < 1
    · rw [if_pos hc]
    · rw [if_neg hc]

/-- C10 witness: a zero pid count leaves a concrete System untouched. -/
theorem C10_witness :
    (System.initial 4 0).refresh_processes 0
        (some [3]) (fun _ => none) = System.initial 4 0 :=
  C10_thm (System.initial 4 0) 0 (some [3]) (fun _ => none)
    (Or.inl (by norm_num))

/- ------------------------------------------------------------------ -/
/- Claim C8: single-pid refresh reports its outcome and is local      -/
/- ------------------------------------------------------------------ -/

/-- C8: `refresh_process(pid)` returns `false` exactly when the single-pid
detail fetch fails (in which case the System is untouched), and `true` when
it succeeds, installing the fetched data under that pid with the liveness
marker set; it never runs the liveness sweep and never touches any other
registry entry. -/
theorem C8_thm (s : System) (pid : Pid) (detail : Option ProcessDetail) :
    ((s.refresh_process pid detail).2 = false ↔ detail = none) ∧
    (detail = none → s.refresh_process pid detail = (s, false)) ∧
    (∀ q, q ≠ pid →
      (s.refresh_process pid detail).1.process_list q = s.process_list q) ∧
    (∀ d, detail = some d →
      ∃ p, (s.refresh_process pid detail).1.process_list pid = some p ∧
        p.updated = true ∧ p.cpu_ticks = d.cpu_ticks ∧ p.memory = d.memory) := by
  cases detail with
  | none =>
    have hr : s.refresh_process pid none = (s, false) := by
      unfold System.refresh_process update_process
      rfl
    refine ⟨by rw [hr]; simp, fun _ => hr, fun q _ => by rw [hr], fun d hd => by cases hd⟩
  | some d =>
    cases hm : s.process_list pid with
    | some p =>
      have hr : s.refresh_process pid (some d)
          = ({ s with process_list := fun q => if q = pid then
                (some { p with old_cpu_ticks := p.cpu_ticks, cpu_ticks := d.cpu_ticks,
                               old_memory := p.memory, memory := d.memory,
                               updated := true })
                else s.process_list q }, true) := by
        unfold System.refresh_process update_process
        rw [hm]
      refine ⟨by rw [hr]; simp, fun h => absurd h (Option.some_ne_none d), ?_, ?_⟩
      · intro q hq
        rw [hr]
        simp [hq]
      · intro d' hd'
        cases hd'
        rw [hr]
        exact ⟨_, if_pos rfl, rfl, rfl, rfl⟩
    | none =>
      have hr : s.refresh_process pid (some d)
          = ({ s with process_list := fun q => if q = pid then
                (some { pid := pid, parent := d.parent, cmd := d.cmd,
                        start_time := d.start_time, cpu_ticks := d.cpu_ticks,
                        old_cpu_ticks := d.cpu_ticks, memory := d.memory,
                        old_memory := d.memory, updated := true })
                else s.process_list q }, true) := by
        unfold System.refresh_process update_process
        rw [hm]
      refine ⟨by rw [hr]; simp, fun h => absurd h (Option.some_ne_none d), ?_, ?_⟩
      · intro q hq
        rw [hr]
        simp [hq]
      · intro d' hd'
        cases hd'
        rw [hr]
        exact ⟨_, if_pos rfl, rfl, rfl, rfl⟩

/-- C8 witness: refreshing pid 5 on a fresh System with a successful detail
fetch returns `true`, installs the record under pid 5, and leaves pid 7
absent; refreshing with a failed fetch returns `false`. -/
theorem C8_witness :
    ((System.initial 4 0).refresh_process 5
        (some { parent := none, cmd := "x", start_time := 1,
                cpu_ticks := 10, memory := 20 })).2 = true ∧
    ((System.initial 4 0).refresh_process 5
        (some { parent := none, cmd := "x", start_time := 1,
                cpu_ticks := 10, memory := 20 })).1.process_list 7 = none ∧
    (∃ p, ((System.initial 4 0).refresh_process 5
        (some { parent := none, cmd := "x", start_time := 1,
                cpu_ticks := 10, memory := 20 })).1.process_list 5 = some p ∧
      p.updated = true) ∧
    ((System.initial 4 0).refresh_process 5 none).2 = false := by
  obtain ⟨hb, -, hframe, hins⟩ := C8_thm (System.initial 4 0) 5
    (some { parent := none, cmd := "x", start_time := 1,
            cpu_ticks := 10, memory := 20 })
  obtain ⟨p, hp1, hp2, -, -⟩ := hins _ rfl
  obtain ⟨-, hnone, -, -⟩ := C8_thm (System.initial 4 0) 5 none
  refine ⟨?_, ?_, ⟨p, hp1, hp2⟩, ?_⟩
  · rcases hb' : ((System.initial 4 0).refresh_process 5
        (some { parent := none, cmd := "x", start_time := 1,
                cpu_ticks := 10, memory := 20 })).2 with _ | _
    · exact absurd (hb.mp hb') (by simp)
    · rfl
  · rw [hframe 7 (by norm_num)]
    rfl
  · rw [hnone rfl]

/- ------------------------------------------------------------------ -/
/- Claim C6: eviction of pids absent from the next enumeration        -/
/- ------------------------------------------------------------------ -/

theorem clear_procs_updated_false (m : ProcMap) (q : Pid) (p : Process)
    (h : clear_procs m q = some p) : p.updated = false := by
  unfold clear_procs has_been_updated at h
  cases hm : m q with
  | none =>
    rw [hm] at h
    cases h
  | some r =>
    rw [hm] at h
    by_cases hr : r.updated
    · simp only [hr, if_true, Option.some.injEq] at h
      rw [← h]
    · simp only [hr, Bool.false_eq_true, if_false] at h
      cases h

theorem clear_procs_none_of_not_updated (m : ProcMap) (q : Pid)
    (h : ∀ p, m q = some p → p.updated = false) : clear_procs m q = none := by
  unfold clear_procs has_been_updated
  cases hm : m q with
  | none => rfl
  | some r => simp [h r hm]

theorem update_process_fst_frame (m : ProcMap) (pid q : Pid)
    (detail : Option ProcessDetail) (hq : q ≠ pid) :
    (update_process m pid detail).1 q = m q := by
  unfold update_process
  cases detail with
  | none => rfl
  | some d =>
    cases m pid with
    | some p => simp [hq]
    | none => rfl

theorem scanStep_fst (details : Pid → Option ProcessDetail)
    (acc : ProcMap × List Process) (pid : Pid) :
    (scanStep details acc pid).1 = (update_process acc.1 pid (details pid)).1 := by
  unfold scanStep
  rcases h : update_process acc.1 pid (details pid) with ⟨m', r⟩
  rcases r with e | o
  · rfl
  · rcases o with _ | p <;> rfl

theorem update_process_ok_pid (m : ProcMap) (pid : Pid)
    (detail : Option ProcessDetail) (p0 : Process)
    (h : (update_process m pid detail).2 = Except.ok (some p0)) : p0.pid = pid := by
  cases detail with
  | none => exact absurd h (by simp [update_process])
  | some d =>
    cases hm : m pid with
    | some p =>
      have hv : (update_process m pid (some d)).2 = Except.ok none := by
        unfold update_process
        rw [hm]
      rw [hv] at h
      simp at h
    | none =>
      have hv : (update_process m pid (some d)).2
          = Except.ok (some { pid := pid, parent := d.parent, cmd := d.cmd,
                              start_time := d.start_time, cpu_ticks := d.cpu_ticks,
                              old_cpu_ticks := d.cpu_ticks, memory := d.memory,
                              old_memory := d.memory, updated := true }) := by
        unfold update_process
        rw [hm]
      rw [hv] at h
      injection h with h1
      injection h1 with h2
      rw [← h2]

theorem scanStep_snd (details : Pid → Option ProcessDetail)
    (acc : ProcMap × List Process) (pid : Pid) (p : Process)
    (hp : p ∈ (scanStep details acc pid).2) : p ∈ acc.2 ∨ p.pid = pid := by
  unfold scanStep at hp
  rcases h : update_process acc.1 pid (details pid) with ⟨m', r⟩
  rw [h] at hp
  rcases r with e | o
  · exact Or.inl hp
  · rcases o with _ | p0
    · exact Or.inl hp
    · rcases List.mem_append.mp hp with hp1 | hp1
      · exact Or.inl hp1
      · rw [List.mem_singleton.mp hp1]
        exact Or.inr (update_process_ok_pid acc.1 pid (details pid) p0
          (by rw [h]))

theorem scan_foldl_fst_frame (details : Pid → Option ProcessDetail) (q : Pid) :
    ∀ (l : List Pid) (acc : ProcMap × List Process), q ∉ l →
      (l.foldl (scanStep details) acc).1 q = acc.1 q := by
  intro l
  induction l with
  | nil => intro acc _; rfl
  | cons pid l ih =>
    intro acc hq
    rw [List.foldl_cons, ih _ (fun h => hq (List.mem_cons_of_mem pid h)),
      scanStep_fst,
      update_process_fst_frame _ _ _ _
        (fun h => hq (by rw [h]; exact List.mem_cons_self pid l))]

theorem scan_foldl_snd_pids (details : Pid → Option ProcessDetail) :
    ∀ (l : List Pid) (acc : ProcMap × List Process) (p : Process),
      p ∈ (l.foldl (scanStep details) acc).2 → p ∈ acc.2 ∨ p.pid ∈ l := by
  intro l
  induction l with
  | nil => intro acc p h; exact Or.inl h
  | cons pid l ih =>
    intro acc p h
    rw [List.foldl_cons] at h
    rcases ih _ p h with h1 | h1
    · rcases scanStep_snd details acc pid p h1 with h2 | h2
      · exact Or.inl h2
      · exact Or.inr (by simp [h2])
    · exact Or.inr (List.mem_cons_of_mem _ h1)

theorem insert_foldl_frame (q : Pid) :
    ∀ (entries : List Process) (m : ProcMap), (∀ p ∈ entries, p.pid ≠ q) →
      (entries.foldl (fun m p => fun r => if r = p.pid then some p else m r) m) q
        = m q := by
  intro entries
  induction entries with
  | nil => intro m _; rfl
  | cons p entries ih =>
    intro m h
    rw [List.foldl_cons, ih _ (fun r hr => h r (List.mem_cons_of_mem p hr))]
    exact if_neg (fun hh => h p (List.mem_cons_self p entries) hh.symm)

theorem refresh_processes_not_listed (s : System) (count : ℤ) (l : List Pid)
    (details : Pid → Option ProcessDetail) (pid : Pid)
    (hc : ¬ count < 1) (hl : pid ∉ l) :
    (s.refresh_processes count (some l) details).process_list pid
      = clear_procs s.process_list pid := by
  unfold System.refresh_processes
  rw [if_neg hc]
  show clear_procs _ pid = _
  have h2 : ∀ p ∈ (l.foldl (scanStep details) (s.process_list, [])).2, p.pid ≠ pid := by
    intro p hp
    rcases scan_foldl_snd_pids details l (s.process_list, []) p hp with h | h
    · exact absurd h (List.not_mem_nil p)
    · exact fun he => hl (he ▸ h)
  unfold clear_procs
  rw [insert_foldl_frame pid _ _ h2, scan_foldl_fst_frame details pid l _ hl]

theorem refresh_processes_all_cleared (s : System) (count : ℤ) (l : List Pid)
    (details : Pid → Option ProcessDetail) (q : Pid) (p : Process)
    (hc : ¬ count < 1)
    (h : (s.refresh_processes count (some l) details).process_list q = some p) :
    p.updated = false := by
  unfold System.refresh_processes at h
  rw [if_neg hc] at h
  exact clear_procs_updated_false _ q p h

/-- C6: a pid present in the registry after one full `refresh_processes`
pass (pid count at least 1, pid list obtained) and absent from the pid
enumeration of the next full pass receives no update in that pass, and
`clear_procs` evicts it: after the second pass the registry has no entry
for it.  (A fortiori: whether or not the pid was present, it is absent
afterwards, since it cannot be inserted either.) -/
theorem C6_thm (s : System) (c1 : ℤ) (L1 : List Pid)
    (d1 : Pid → Option ProcessDetail) (c2 : ℤ) (L2 : List Pid)
    (d2 : Pid → Option ProcessDetail) (pid : Pid)
    (h1 : 1 ≤ c1) (h2 : 1 ≤ c2) (hpid : pid ∉ L2) :
    ((s.refresh_processes c1 (some L1) d1).refresh_processes c2
        (some L2) d2).process_list pid = none := by
  have hc1 : ¬ c1 < 1 := by omega
  have hc2 : ¬ c2 < 1 := by omega
  rw [refresh_processes_not_listed _ c2 L2 d2 pid hc2 hpid]
  exact clear_procs_none_of_not_updated _ pid
    (fun p hp => refresh_processes_all_cleared s c1 L1 d1 pid p hc1 hp)

/-- C6 witness: pid 3 is inserted by a first full pass, the second full
pass enumerates only pid 4, and pid 3 is gone afterwards (while it was
present in between). -/
theorem C6_witness :
    (((System.initial 4 0).refresh_processes 1 (some [3])
        (fun _ => some { parent := none, cmd := "p", start_time := 0,
                         cpu_ticks := 1, memory := 2 })).refresh_processes 1
        (some [4])
        (fun _ => some { parent := none, cmd := "p", start_time := 0,
                         cpu_ticks := 1, memory := 2 })).process_list 3 = none ∧
    ((System.initial 4 0).refresh_processes 1 (some [3])
        (fun _ => some { parent := none, cmd := "p", start_time := 0,
                         cpu_ticks := 1, memory := 2 })).process_list 3
      = some { pid := 3, parent := none, cmd := "p", start_time := 0,
               cpu_ticks := 1, old_cpu_ticks := 1, memory := 2,
               old_memory := 2, updated := false } := by
  constructor
  · exact C6_thm (System.initial 4 0) 1 [3]
      (fun _ => some { parent := none, cmd := "p", start_time := 0,
                       cpu_ticks := 1, memory := 2 }) 1 [4]
      (fun _ => some { parent := none, cmd := "p", start_time := 0,
                       cpu_ticks := 1, memory := 2 }) 3
      (by norm_num) (by norm_num) (by decide)
  · rfl
